import Mathlib

/-!
Shallow embedding of the hubcorner-music-studio generation core
(`src/server/services/professional-music-engine.ts`,
`src/server/services/professional-audio-renderer.ts`,
`src/server/services/music-generator.ts`) and proofs about the claims
on its natural-language specification.

JS numbers are modelled as exact rationals (`ℚ`) or integers (`ℤ`);
values that can be `NaN`/`undefined` (out-of-bounds array reads) are
modelled as `Option ℤ` with `none` standing for `NaN`. JS `%` on the
nonnegative operands that occur here agrees with `Int.emod`.
-/

namespace HubCorner

/-- JS `Math.round`: round half toward positive infinity. Stated with the executable
`Rat.floor`; `jsRound_eq_floor` gives the `⌊⌋` form. -/
def jsRound (x : ℚ) : ℤ := Rat.floor (x + 1/2)

theorem ratFloor_eq_intFloor (x : ℚ) : Rat.floor x = ⌊x⌋ :=
  (Rat.floor_def' x).trans Rat.floor_def.symm

theorem jsRound_eq_floor (x : ℚ) : jsRound x = ⌊x + 1/2⌋ :=
  ratFloor_eq_intFloor (x + 1/2)

/-- JS `x || d` on numeric settings: a falsy (zero) value picks the default `d`. -/
def jsOr (x d : ℚ) : ℚ := if x = 0 then d else x

/-- The `mood` enum of `MusicTheoryAnalysis` (professional-music-engine.ts line 17). -/
inductive Mood where
  | dreamy
  | dark
  | uplifting
  | melancholic
  | ethereal
  | nostalgic
deriving DecidableEq, Repr

/-- The `moodKeywords` table of `extractAdvancedMood` (lines 149-156). -/
def moodKeywords : Mood → List String
  | .dreamy => ["dreamy", "ethereal", "floating", "soft", "gentle", "peaceful", "serene", "ambient"]
  | .dark => ["dark", "mysterious", "brooding", "ominous", "gothic", "sinister", "moody", "shadow"]
  | .uplifting => ["uplifting", "bright", "happy", "energetic", "positive", "euphoric", "joyful"]
  | .melancholic => ["sad", "melancholic", "tragic", "somber", "wistful", "nostalgic", "longing"]
  | .ethereal => ["ethereal", "ghostly", "spiritual", "otherworldly", "transcendent", "celestial"]
  | .nostalgic => ["nostalgic", "vintage", "retro", "memory", "reminiscent", "yearning"]

/-- Insertion order of the `moodKeywords` object, the order `Object.entries` iterates. -/
def moodOrder : List Mood :=
  [.dreamy, .dark, .uplifting, .melancholic, .ethereal, .nostalgic]

/-- `MusicTheoryEngine.extractAdvancedMood` (lines 148-165): first mood whose keyword
set meets the word list, defaulting to `dreamy`. -/
def extractAdvancedMood (words : List String) : Mood :=
  (moodOrder.find? (fun m => words.any (fun w => (moodKeywords m).contains w))).getD .dreamy

/-- `MusicTheoryEngine.SCALES` (lines 89-96). -/
def naturalMinorScale : List ℤ := [0, 2, 3, 5, 7, 8, 10]

def harmonicMinorScale : List ℤ := [0, 2, 3, 5, 7, 8, 11]

def dorianScale : List ℤ := [0, 2, 3, 5, 7, 9, 10]

def phrygianScale : List ℤ := [0, 1, 3, 5, 7, 8, 10]

def majorScale : List ℤ := [0, 2, 4, 5, 7, 9, 11]

def pentatonicMinorScale : List ℤ := [0, 3, 5, 7, 10]

/-- `MusicTheoryEngine.selectScale` (lines 189-201): the `scaleByMood` object maps every
mood to a scale name which is then looked up in `SCALES`; all six moods are present, so
the `natural-minor` fallback is never taken. -/
def selectScale : Mood → List ℤ
  | .dreamy => naturalMinorScale
  | .dark => phrygianScale
  | .uplifting => majorScale
  | .melancholic => naturalMinorScale
  | .ethereal => dorianScale
  | .nostalgic => naturalMinorScale

/-- The slow-keyword set of `calculateProfessionalTempo` (line 207). -/
def slowTempoWords : List String := ["slow", "languid", "dreamy", "ambient"]

/-- The fast-keyword set of `calculateProfessionalTempo` (line 209). -/
def fastTempoWords : List String := ["fast", "energetic", "driving", "intense"]

/-- The `tempoMultiplier` computed inside `calculateProfessionalTempo` (lines 205-211):
slow keywords win over fast keywords, default 1. -/
def tempoBiasMultiplier (words : List String) : ℚ :=
  if words.any (fun w => slowTempoWords.contains w) then 7/10
  else if words.any (fun w => fastTempoWords.contains w) then 13/10
  else 1

/-- `MusicTheoryEngine.calculateProfessionalTempo` (lines 203-214):
`Math.round(baseTempo * tempoMultiplier)`, with no clamping. -/
def calculateProfessionalTempo (words : List String) (baseTempo : ℚ) : ℤ :=
  jsRound (baseTempo * tempoBiasMultiplier words)

/-- `MusicTheoryEngine.CHORD_PROGRESSIONS['ambient-trap']` (lines 68-86): Roman-numeral
templates exist only for `dreamy`, `dark` and `uplifting`; `none` models the `undefined`
lookup for the three remaining moods. -/
def chordProgressionsAmbientTrap : Mood → Option (List (List String))
  | .dreamy => some [["vi", "IV", "I", "V"], ["i", "VI", "III", "VII"], ["i", "v", "VI", "IV"]]
  | .dark => some [["i", "VII", "VI", "VII"], ["i", "ii°", "V", "i"], ["i", "VI", "ii°", "V"]]
  | .uplifting => some [["I", "V", "vi", "IV"], ["I", "vi", "ii", "V"], ["IV", "V", "vi", "I"]]
  | _ => none

/-- The `keysByMood` table of `selectProfessionalKey` (lines 176-183). -/
def keysByMood : Mood → List String
  | .dreamy => ["Em", "Am", "Dm", "F#m"]
  | .dark => ["Dm", "Gm", "Cm", "F#m"]
  | .uplifting => ["C", "G", "D", "A"]
  | .melancholic => ["Am", "Em", "Bm", "F#m"]
  | .ethereal => ["Em", "Bm", "F#m", "C#m"]
  | .nostalgic => ["Am", "Dm", "G", "Em"]

/-- The `noteToNumber` object of `parseKey` (lines 241-244). -/
def noteToNumber : List (String × ℤ) :=
  [("C", 0), ("C#", 1), ("Db", 1), ("D", 2), ("D#", 3), ("Eb", 3), ("E", 4), ("F", 5),
   ("F#", 6), ("Gb", 6), ("G", 7), ("G#", 8), ("Ab", 8), ("A", 9), ("A#", 10), ("Bb", 10),
   ("B", 11)]

/-- `key.replace(/m$/, '')`: drop one trailing `m` if present. -/
def stripMinorSuffix (key : String) : String :=
  if key.toList.getLast? = some 'm' then String.mk key.toList.dropLast else key

/-- `MusicTheoryEngine.parseKey` (lines 240-248): strip a trailing `m`, look the note
name up, default 0. -/
def parseKey (key : String) : ℤ :=
  (((noteToNumber.find? (fun p => p.1 == stripMinorSuffix key)).map Prod.snd)).getD 0

/-- The `romanMap` object of `romanToChord` (lines 252-255). -/
def romanMap : List (String × ℕ) :=
  [("I", 0), ("ii", 1), ("iii", 2), ("IV", 3), ("V", 4), ("vi", 5), ("vii°", 6),
   ("i", 0), ("II", 1), ("III", 2), ("iv", 3), ("v", 4), ("VI", 5), ("VII", 6)]

/-- Degree lookup `romanMap[roman] || 0` (line 257). -/
def romanDegree (roman : String) : ℕ :=
  (((romanMap.find? (fun p => p.1 == roman)).map Prod.snd)).getD 0

/-- A JS number that may be `NaN` (arithmetic on an out-of-bounds array read):
`none` is `NaN`. -/
abbrev JSNum := Option ℤ

/-- JS addition: any `NaN`/`undefined` operand yields `NaN`. -/
def jsAdd : JSNum → JSNum → JSNum
  | some a, some b => some (a + b)
  | _, _ => none

/-- JS subtraction: any `NaN`/`undefined` operand yields `NaN`. -/
def jsSub : JSNum → JSNum → JSNum
  | some a, some b => some (a - b)
  | _, _ => none

/-- JS `x % 12`: `NaN % 12` is `NaN`; on the nonnegative values occurring here it is
`Int.emod`. -/
def jsMod12 : JSNum → JSNum
  | some a => some (a % 12)
  | none => none

/-- The triad computation of `MusicTheoryEngine.romanToChord` (lines 250-265):
`chordRoot = (root + scale[degree]) % 12` and the third/fifth read
`scale[degree + 2]` and `scale[degree + 4]` without wrapping, which falls off the end
of a 7-element scale for degrees 5 and 6. -/
def romanToChordIntervals (roman : String) (root : ℤ) (scale : List ℤ) : List JSNum :=
  let degree := romanDegree roman
  let chordRoot := jsMod12 (jsAdd (some root) scale[degree]?)
  [chordRoot,
   jsMod12 (jsSub (jsAdd chordRoot scale[degree + 2]?) scale[degree]?),
   jsMod12 (jsSub (jsAdd chordRoot scale[degree + 4]?) scale[degree]?)]

/-- `MusicTheoryEngine.generateProfessionalChordProgression` (lines 216-238), with the
random template choice made explicit as `pick`: the mood lookup into
`CHORD_PROGRESSIONS['ambient-trap']` is `undefined` (here `none`) for
melancholic/ethereal/nostalgic, in which case the original code throws a `TypeError`
when it indexes the `undefined` value. -/
def generateProfessionalChordProgression (mood : Mood) (pick : ℕ) (root : ℤ)
    (scale : List ℤ) : Option (List (List JSNum)) :=
  (chordProgressionsAmbientTrap mood).map fun ps =>
    ((ps[pick % ps.length]?).getD []).map fun roman => romanToChordIntervals roman root scale

/-- The `moodMultipliers` table shared by `MusicGenerator.calculateDynamicDuration`
(music-generator.ts lines 491-498) and `calculateProfessionalDuration` (lines 605-612). -/
def moodDurationMultiplier : Mood → ℚ
  | .dreamy => 12/10
  | .dark => 11/10
  | .uplifting => 9/10
  | .melancholic => 13/10
  | .ethereal => 14/10
  | .nostalgic => 11/10

/-- `MusicGenerator.calculateDynamicDuration` (music-generator.ts lines 486-508):
base `120 + 5·generationCount`, mood multiplier, pace adjustment, then
`Math.min(180, Math.max(90, Math.floor(_)))`. -/
def calculateDynamicDuration (generationCount : ℕ) (mood : Mood) (pace : ℚ) : ℤ :=
  let base0 : ℚ := 120 + generationCount * 5
  let base1 := base0 * moodDurationMultiplier mood
  let base2 := if pace < 80 then base1 * (12/10) else if pace > 120 then base1 * (8/10) else base1
  min 180 (max 90 (Rat.floor base2))

/-- `MusicGenerator.calculateProfessionalDuration` (music-generator.ts lines 596-622):
base 120, tempo adjustment, mood multiplier, structure multiplier `totalBars / 48`,
then `Math.min(180, Math.max(90, Math.floor(_)))`. -/
def calculateProfessionalDuration (tempo : ℤ) (mood : Mood) (totalBars : ℤ) : ℤ :=
  let base0 : ℚ := 120
  let base1 := if tempo < 80 then base0 * (13/10) else if tempo > 120 then base0 * (8/10) else base0
  let base2 := base1 * moodDurationMultiplier mood
  let base3 := base2 * ((totalBars : ℚ) / 48)
  min 180 (max 90 (Rat.floor base3))

/-- Bar counts of `MusicTheoryEngine.createProfessionalStructure`
(professional-music-engine.ts lines 320-352). -/
structure StructureBars where
  intro : ℤ
  verse : ℤ
  chorus : ℤ
  bridge : ℤ
  outro : ℤ
  totalBars : ℤ
deriving DecidableEq, Repr

/-- `MusicTheoryEngine.createProfessionalStructure` (lines 320-352): the base 8/16/8/8/8
bar counts scaled by the tempo multiplier (1.5 below 80 BPM, 0.8 above 120, else 1). -/
def createProfessionalStructure (tempo : ℤ) : StructureBars :=
  let tempoMultiplier : ℚ := if tempo < 80 then 3/2 else if tempo > 120 then 4/5 else 1
  { intro := jsRound (8 * tempoMultiplier)
    verse := jsRound (16 * tempoMultiplier)
    chorus := jsRound (8 * tempoMultiplier)
    bridge := jsRound (8 * tempoMultiplier)
    outro := jsRound (8 * tempoMultiplier)
    totalBars := jsRound ((8 + 16 + 8 + 8 + 8) * tempoMultiplier) }

/-- One `{start, end}` section of `GenerationMetadata.structure` (music-generator.ts
lines 11-17); `end` is a Lean keyword, so the field is named `stop`. -/
structure SectionRange where
  start : ℚ
  stop : ℚ
deriving DecidableEq, Repr

/-- The five named sections of `GenerationMetadata.structure`. -/
structure SongStructureE where
  intro : SectionRange
  verse : SectionRange
  hook : SectionRange
  bridge : SectionRange
  outro : SectionRange
deriving DecidableEq, Repr

/-- `MusicGenerator.createProfessionalSongStructure` (music-generator.ts lines 624-663):
`barDuration = 4 / (tempo / 60)`; sections are chained from 0 by bar counts, and only
the outro end is pinned to `duration`. -/
def createProfessionalSongStructure (duration : ℚ) (tempo : ℚ) (bars : StructureBars) :
    SongStructureE :=
  let barDuration : ℚ := 4 / (tempo / 60)
  let t1 : ℚ := 0 + (bars.intro : ℚ) * barDuration
  let t2 : ℚ := t1 + (bars.verse : ℚ) * barDuration
  let t3 : ℚ := t2 + (bars.chorus : ℚ) * barDuration
  let t4 : ℚ := t3 + (bars.bridge : ℚ) * barDuration
  { intro := ⟨0, t1⟩
    verse := ⟨t1, t2⟩
    hook := ⟨t2, t3⟩
    bridge := ⟨t3, t4⟩
    outro := ⟨t4, duration⟩ }

/-- The professional generation path of `MusicGenerator.generateEnhancedFallback`
(music-generator.ts lines 547-594) restricted to the song-structure metadata: mood and
tempo come from `analyzePromptAdvanced` on the prompt words, bar counts from
`createProfessionalStructure`, the duration from `calculateProfessionalDuration`, and
the time ranges from `createProfessionalSongStructure`. -/
def professionalStructureOf (words : List String) (pace : ℚ) : SongStructureE :=
  let mood := extractAdvancedMood words
  let tempo := calculateProfessionalTempo words (jsOr pace 85)
  let bars := createProfessionalStructure tempo
  let duration := calculateProfessionalDuration tempo mood bars.totalBars
  createProfessionalSongStructure (duration : ℚ) (tempo : ℚ) bars

/-- Little-endian byte pairs, as written by `Buffer.writeUInt16LE`. -/
def u16le (v : ℕ) : List ℕ := [v % 256, v / 256 % 256]

/-- Little-endian byte quadruples, as written by `Buffer.writeUInt32LE`. -/
def u32le (v : ℕ) : List ℕ := [v % 256, v / 256 % 256, v / 65536 % 256, v / 16777216 % 256]

/-- Little-endian signed 16-bit encoding, as written by `Buffer.writeInt16LE`:
two's complement of the value, low byte first. -/
def int16le (v : ℤ) : List ℕ :=
  let u := (v % 65536).toNat
  [u % 256, u / 256]

/-- ASCII codes of a header tag, as written by `Buffer.write`. -/
def asciiCodes (s : String) : List ℕ := s.toList.map Char.toNat

/-- `Math.max(-1, Math.min(1, sample))` (professional-audio-renderer.ts line 567). -/
def clamp1 (x : ℚ) : ℚ := max (-1) (min 1 x)

/-- JS integer coercion (`ToIntegerOrInfinity`), truncation toward zero: applied by
Node's `Buffer.writeInt16LE` to a fractional in-range value. -/
def jsTrunc (x : ℚ) : ℤ := if x < 0 then -(Rat.floor (-x)) else Rat.floor x

/-- Sample conversion of `ProfessionalAudioRenderer.createWAVBuffer` (lines 566-570):
`Math.round(clamp(sample) * 32767)` written little-endian signed 16-bit. -/
def encodeSample (x : ℚ) : List ℕ :=
  int16le (jsRound (clamp1 x * 32767))

/-- Sample conversion of `MusicGenerator.createWAVBuffer` (music-generator.ts lines
313-316 and 1082-1085): `writeInt16LE(clamp(sample) * 0x7FFF, _)` with no `Math.round`
— Node range-checks the value and then truncates the fraction toward zero when
assigning the bytes. -/
def encodeSampleTrunc (x : ℚ) : List ℕ :=
  int16le (jsTrunc (clamp1 x * 32767))

/-- `ProfessionalAudioRenderer.createWAVBuffer` (lines 546-573). The source writes at
consecutive offsets 0,4,8,12,16,20,22,24,28,32,34,36,40 and then `44 + 2·i`, so the
buffer is the concatenation of those writes. -/
def createWAVBuffer (audioData : List ℚ) (sampleRate : ℕ) : List ℕ :=
  asciiCodes "RIFF" ++ u32le (36 + audioData.length * 2) ++
  asciiCodes "WAVE" ++ asciiCodes "fmt " ++
  u32le 16 ++ u16le 1 ++ u16le 1 ++ u32le sampleRate ++ u32le (sampleRate * 2) ++
  u16le 2 ++ u16le 16 ++
  asciiCodes "data" ++ u32le (audioData.length * 2) ++
  (audioData.map encodeSample).flatten

/-- `MusicGenerator.createWAVBuffer` (music-generator.ts lines 293-319, duplicated at
1062-1088): the header writes are byte-for-byte those of the renderer's encoder, but
the sample loop writes `sample * 0x7FFF` without `Math.round`, so the fraction is
truncated toward zero. -/
def musicGeneratorCreateWAVBuffer (audioData : List ℚ) (sampleRate : ℕ) : List ℕ :=
  asciiCodes "RIFF" ++ u32le (36 + audioData.length * 2) ++
  asciiCodes "WAVE" ++ asciiCodes "fmt " ++
  u32le 16 ++ u16le 1 ++ u16le 1 ++ u32le sampleRate ++ u32le (sampleRate * 2) ++
  u16le 2 ++ u16le 16 ++
  asciiCodes "data" ++ u32le (audioData.length * 2) ++
  (audioData.map encodeSampleTrunc).flatten

/-- The 44-byte canonical PCM WAV header as the specification describes it (spec §4.6):
RIFF/WAVE, `fmt ` chunk of size 16 with format 1, 1 channel, the given sample rate,
byte rate `2·rate`, block align 2, 16 bits per sample, and a `data` chunk of size
`2·numSamples`; the RIFF size field is `36 + 2·numSamples`. Stated from the spec's
words, to be compared with `createWAVBuffer` from the source. -/
def wavHeaderSpec (numSamples sampleRate : ℕ) : List ℕ :=
  asciiCodes "RIFF" ++ u32le (36 + 2 * numSamples) ++
  asciiCodes "WAVE" ++ asciiCodes "fmt " ++
  u32le 16 ++ u16le 1 ++ u16le 1 ++ u32le sampleRate ++ u32le (sampleRate * 2) ++
  u16le 2 ++ u16le 16 ++
  asciiCodes "data" ++ u32le (2 * numSamples)

/-- `(settings.distortion || 20) / 100` (professional-audio-renderer.ts line 446). -/
def distAmountOf (distortion : ℚ) : ℚ := jsOr distortion 20 / 100

/-- `(settings.reverb || 70) / 100` (professional-audio-renderer.ts line 458). -/
def reverbLevelOf (reverb : ℚ) : ℚ := jsOr reverb 70 / 100

/-- `ProfessionalAudioRenderer.applyDistortion` (lines 445-452): tape-saturation curve
`tanh(sample · (1 + amount·3)) · (1 − amount·0.1)`, with the (unreachable) early return
when the computed amount is exactly 0. -/
noncomputable def applyDistortion (distortion : ℚ) (sample : ℝ) : ℝ :=
  if distAmountOf distortion = 0 then sample
  else
    let driven := sample * (1 + (distAmountOf distortion : ℝ) * 3)
    Real.tanh driven * (1 - (distAmountOf distortion : ℝ) * (1/10))

/-- `ProfessionalAudioRenderer.applyFilter` (lines 376-385): multiply by the cutoff
modulation `0.8 + 0.2·sin(t·0.3)`. -/
noncomputable def applyFilter (sample : ℝ) (t : ℝ) : ℝ :=
  sample * (8/10 + (2/10) * Real.sin (t * (3/10)))

/-- `ProfessionalAudioRenderer.applyChorus` (lines 482-486): multiply by
`1 + sin(2π·0.5·t)·0.02`. -/
noncomputable def applyChorus (sample : ℝ) (t : ℝ) : ℝ :=
  sample * (1 + Real.sin (2 * Real.pi * (1/2) * t) * (2/100))

/-- A delay or reverb ring buffer (`initializeEffectsChain`, lines 410-418):
a sample array with a write index. -/
structure RingBuffer where
  buffer : List ℝ
  index : ℕ

/-- `ProfessionalAudioRenderer.applyDelay` (lines 471-477): read the delayed sample,
write back `input + 0.3·delayed`, advance the index, output `input + 0.2·delayed`. -/
noncomputable def applyDelay (sample : ℝ) (st : RingBuffer) : ℝ × RingBuffer :=
  let delayedSample := st.buffer.getD st.index 0
  let buffer2 := st.buffer.set st.index (sample + delayedSample * (3/10))
  (sample + delayedSample * (2/10), ⟨buffer2, (st.index + 1) % st.buffer.length⟩)

/-- `ProfessionalAudioRenderer.applyReverb` (lines 457-466): the wet level is
`(settings.reverb || 70) / 100`; unless that level is exactly 0, read the delayed
sample, write back `input + delayed·level·0.4`, advance the index, and output
`input + delayed·level`. -/
noncomputable def applyReverb (reverb : ℚ) (sample : ℝ) (st : RingBuffer) : ℝ × RingBuffer :=
  if reverbLevelOf reverb = 0 then (sample, st)
  else
    let delayedSample := st.buffer.getD st.index 0
    let buffer2 := st.buffer.set st.index
      (sample + delayedSample * (reverbLevelOf reverb : ℝ) * (4/10))
    (sample + delayedSample * (reverbLevelOf reverb : ℝ),
     ⟨buffer2, (st.index + 1) % st.buffer.length⟩)

/-- One sample of `ProfessionalAudioRenderer.applyEffectsChain` (lines 423-440):
distortion, then filter, then chorus, then delay, then reverb, at `t = i / 44100`. -/
noncomputable def applyEffectsChainStep (distortion reverb : ℚ) (i : ℕ) (sample : ℝ)
    (delaySt reverbSt : RingBuffer) : ℝ × RingBuffer × RingBuffer :=
  let t : ℝ := (i : ℝ) / 44100
  let s1 := applyDistortion distortion sample
  let s2 := applyFilter s1 t
  let s3 := applyChorus s2 t
  let s4 := applyDelay s3 delaySt
  let s5 := applyReverb reverb s4.1 reverbSt
  (s5.1, s4.2, s5.2)

/-- `applyReverb` mapped over a sample sequence, threading the ring buffer, as the
loop of `applyEffectsChain` does for the reverb stage. -/
noncomputable def applyReverbRun (reverb : ℚ) : List ℝ → RingBuffer → List ℝ × RingBuffer
  | [], st => ([], st)
  | x :: xs, st =>
    let y := applyReverb reverb x st
    let ys := applyReverbRun reverb xs y.2
    (y.1 :: ys.1, ys.2)

/-- The `GenerationSettings` fields read by the embedded functions
(spec §3; routes.ts schema). -/
structure GenerationSettingsE where
  bass : ℚ
  pace : ℚ
  reverb : ℚ
  distortion : ℚ
  mood : Mood
deriving DecidableEq, Repr

/-- The fields of `MusicTheoryAnalysis` derived by `analyzePromptAdvanced` that the
claims concern. -/
structure MusicTheoryAnalysisE where
  mood : Mood
  scale : List ℤ
  tempo : ℤ
deriving DecidableEq, Repr

/-- `MusicTheoryEngine.analyzePromptAdvanced` (professional-music-engine.ts lines
115-146), restricted to mood, scale and tempo: the mood is
`extractAdvancedMood(words)` — the `settings` argument's `mood` field is never read —
the scale is `selectScale(mood)`, and the tempo is
`calculateProfessionalTempo(words, settings.pace || 85)`. -/
def analyzePromptAdvanced (words : List String) (settings : GenerationSettingsE) :
    MusicTheoryAnalysisE :=
  let mood := extractAdvancedMood words
  { mood := mood
    scale := selectScale mood
    tempo := calculateProfessionalTempo words (jsOr settings.pace 85) }

/-- The tokenization `prompt.toLowerCase().split(/[\s,.-]+/)` of `analyzePromptAdvanced`
(line 116), modelled as splitting on space, comma, period and hyphen and discarding
empty fragments (splitting on a run of separators yields empty strings in between). -/
def tokenizeWords (prompt : String) : List String :=
  ((prompt.toList.map Char.toLower).splitOnP
      (fun c => c == ' ' || c == ',' || c == '.' || c == '-')).filterMap
    (fun w => if w.isEmpty then none else some (String.mk w))

/-- Clamping with `min 180 (max 90 _)` always lands in `[90, 180]`. -/
theorem clamp_90_180_mem (x : ℤ) : 90 ≤ min 180 (max 90 x) ∧ min 180 (max 90 x) ≤ 180 :=
  ⟨le_min (by norm_num) (le_max_left _ _), min_le_left _ _⟩

/-- C1: false of the code. The progression table `CHORD_PROGRESSIONS['ambient-trap']`
has no entry for the valid moods melancholic, ethereal and nostalgic (modelled as
`none`), although the prompt word "sad" resolves the mood to melancholic; there
`generateProfessionalChordProgression` indexes `undefined` and the original code throws
a `TypeError` instead of returning a 4-chord progression. -/
theorem chordProgression_missing_for_melancholic :
    extractAdvancedMood ["sad"] = Mood.melancholic ∧
    generateProfessionalChordProgression Mood.melancholic 0 4 naturalMinorScale = none ∧
    chordProgressionsAmbientTrap Mood.melancholic = none ∧
    chordProgressionsAmbientTrap Mood.ethereal = none ∧
    chordProgressionsAmbientTrap Mood.nostalgic = none ∧
    (chordProgressionsAmbientTrap Mood.dreamy).isSome ∧
    (chordProgressionsAmbientTrap Mood.dark).isSome ∧
    (chordProgressionsAmbientTrap Mood.uplifting).isSome := by
  decide

/-- C2: `selectScale` maps dreamy, melancholic and nostalgic to natural minor, dark to
phrygian, uplifting to major and ethereal to dorian, exactly as the specification
states, covering all six moods. -/
theorem selectScale_mood_mapping :
    selectScale Mood.dreamy = [0, 2, 3, 5, 7, 8, 10] ∧
    selectScale Mood.melancholic = [0, 2, 3, 5, 7, 8, 10] ∧
    selectScale Mood.nostalgic = [0, 2, 3, 5, 7, 8, 10] ∧
    selectScale Mood.dark = [0, 1, 3, 5, 7, 8, 10] ∧
    selectScale Mood.uplifting = [0, 2, 4, 5, 7, 9, 11] ∧
    selectScale Mood.ethereal = [0, 2, 3, 5, 7, 9, 10] := by
  decide

/-- C3: both duration computations end in `Math.min(180, Math.max(90, Math.floor(_)))`,
so for every generation count, mood, pace, tempo and bar total the returned duration
lies in the closed interval `[90, 180]`. -/
theorem duration_within_90_180 :
    (∀ (generationCount : ℕ) (mood : Mood) (pace : ℚ),
      90 ≤ calculateDynamicDuration generationCount mood pace ∧
      calculateDynamicDuration generationCount mood pace ≤ 180) ∧
    (∀ (tempo : ℤ) (mood : Mood) (totalBars : ℤ),
      90 ≤ calculateProfessionalDuration tempo mood totalBars ∧
      calculateProfessionalDuration tempo mood totalBars ≤ 180) :=
  ⟨fun _ _ _ => clamp_90_180_mem _, fun _ _ _ => clamp_90_180_mem _⟩

/-- C4: false of the code. With pace 60 and the prompt "music" (mood dreamy, tempo 60),
the bar-based sections of `createProfessionalSongStructure` take 4 seconds per bar and
overshoot the clamped 180-second duration: the hook already ends at 192 s and the
bridge at 240 s, so the outro runs from 240 s back to 180 s — its end lies strictly
before its start, and the ranges neither stay below the duration nor partition it. -/
theorem professionalStructure_outro_inverted :
    extractAdvancedMood ["music"] = Mood.dreamy ∧
    calculateProfessionalTempo ["music"] (jsOr 60 85) = 60 ∧
    calculateProfessionalDuration 60 Mood.dreamy 72 = 180 ∧
    professionalStructureOf ["music"] 60 =
      ⟨⟨0, 48⟩, ⟨48, 144⟩, ⟨144, 192⟩, ⟨192, 240⟩, ⟨240, 180⟩⟩ ∧
    (professionalStructureOf ["music"] 60).outro.stop <
      (professionalStructureOf ["music"] 60).outro.start := by
  have hmood : extractAdvancedMood ["music"] = Mood.dreamy := by decide
  have htempo : calculateProfessionalTempo ["music"] (jsOr 60 85) = 60 := by
    simp [calculateProfessionalTempo, tempoBiasMultiplier, slowTempoWords, fastTempoWords,
      jsOr, jsRound, ratFloor_eq_intFloor]
    norm_num [Int.floor_eq_iff]
  have hbars : createProfessionalStructure 60 = ⟨12, 24, 12, 12, 12, 72⟩ := by
    simp [createProfessionalStructure, jsRound, ratFloor_eq_intFloor, StructureBars.mk.injEq]
    norm_num [Int.floor_eq_iff]
  have hdur : calculateProfessionalDuration 60 Mood.dreamy 72 = 180 := by
    simp [calculateProfessionalDuration, moodDurationMultiplier, ratFloor_eq_intFloor]
    norm_num [Int.floor_eq_iff, min_def, max_def]
  have hs : professionalStructureOf ["music"] 60 =
      ⟨⟨0, 48⟩, ⟨48, 144⟩, ⟨144, 192⟩, ⟨192, 240⟩, ⟨240, 180⟩⟩ := by
    simp [professionalStructureOf, hmood, htempo, hbars, hdur, createProfessionalSongStructure]
    norm_num
  refine ⟨hmood, htempo, hdur, hs, ?_⟩
  rw [hs]
  norm_num

/-- C6, counterexample: `calculateProfessionalTempo` applies no clamp. A fast keyword
at base 180 BPM yields 234 > 180, and a slow keyword at base 60 BPM yields 42 < 53,
both outside the interval `[53, 180]` the claim asserts. -/
theorem professionalTempo_not_clamped :
    calculateProfessionalTempo ["fast"] 180 = 234 ∧
    calculateProfessionalTempo ["slow"] 60 = 42 ∧
    ¬ (calculateProfessionalTempo ["fast"] 180 ≤ 180) ∧
    ¬ (53 ≤ calculateProfessionalTempo ["slow"] 60) := by
  have hfast : calculateProfessionalTempo ["fast"] 180 = 234 := by
    simp [calculateProfessionalTempo, tempoBiasMultiplier, slowTempoWords, fastTempoWords,
      jsRound, ratFloor_eq_intFloor]
    norm_num [Int.floor_eq_iff]
  have hslow : calculateProfessionalTempo ["slow"] 60 = 42 := by
    simp [calculateProfessionalTempo, tempoBiasMultiplier, slowTempoWords, fastTempoWords,
      jsRound, ratFloor_eq_intFloor]
    norm_num [Int.floor_eq_iff]
  exact ⟨hfast, hslow, by rw [hfast]; norm_num, by rw [hslow]; norm_num⟩

/-- C6, amended: the resolved tempo is `Math.round(baseBPM × multiplier)` with
multiplier 0.7 on a slow keyword, 1.3 on a fast keyword and 1.0 otherwise, with no
clamping; for base BPM in `[60, 180]` the result therefore lies in `[42, 234]`. -/
theorem professionalTempo_round_formula (words : List String) (base : ℚ)
    (h1 : 60 ≤ base) (h2 : base ≤ 180) :
    calculateProfessionalTempo words base = jsRound (base * tempoBiasMultiplier words) ∧
    42 ≤ calculateProfessionalTempo words base ∧
    calculateProfessionalTempo words base ≤ 234 := by
  have hm : 7/10 ≤ tempoBiasMultiplier words ∧ tempoBiasMultiplier words ≤ 13/10 := by
    unfold tempoBiasMultiplier
    split_ifs <;> norm_num
  have hlo : (42 : ℚ) ≤ base * tempoBiasMultiplier words := by nlinarith [hm.1, hm.2]
  have hhi : base * tempoBiasMultiplier words ≤ 234 := by nlinarith [hm.1, hm.2]
  refine ⟨rfl, ?_, ?_⟩
  · unfold calculateProfessionalTempo jsRound
    rw [ratFloor_eq_intFloor]
    refine Int.le_floor.mpr ?_
    push_cast
    linarith
  · unfold calculateProfessionalTempo jsRound
    rw [ratFloor_eq_intFloor, ← Int.lt_add_one_iff]
    refine Int.floor_lt.mpr ?_
    push_cast
    linarith

/-- Witness for `professionalTempo_round_formula` at the default base BPM 85 and an
empty word list. -/
theorem professionalTempo_round_formula_witness :
    calculateProfessionalTempo [] 85 = jsRound (85 * tempoBiasMultiplier []) ∧
    42 ≤ calculateProfessionalTempo [] 85 ∧
    calculateProfessionalTempo [] 85 ≤ 234 :=
  professionalTempo_round_formula [] 85 (by norm_num) (by norm_num)

/-- C7: false of the code. On the reachable dark-mood configuration — phrygian scale,
key Dm (root 2), Roman numeral `VII` from the template `i-VII-VI-VII` — the degree-6
chord reads `scale[8]` and `scale[10]` past the end of the 7-element scale, so the
third and fifth intervals are `NaN` (modelled as `none`) rather than semitones in
`[0, 11]`. -/
theorem romanToChord_nan_intervals :
    selectScale Mood.dark = phrygianScale ∧
    (keysByMood Mood.dark).contains "Dm" ∧
    parseKey "Dm" = 2 ∧
    ((chordProgressionsAmbientTrap Mood.dark).getD []).contains ["i", "VII", "VI", "VII"] ∧
    romanDegree "VII" = 6 ∧
    phrygianScale[8]? = none ∧
    romanToChordIntervals "VII" 2 phrygianScale = [some 0, none, none] := by
  decide

/-- C9, counterexample: with the prompt "dark brooding" and `settings.mood` explicitly
set to uplifting, `analyzePromptAdvanced` resolves the mood to dark — explicit
settings mood does not take precedence over prompt keywords. -/
theorem analyzeMood_ignores_settings_mood :
    (analyzePromptAdvanced (tokenizeWords "dark brooding")
      { bass := 50, pace := 85, reverb := 70, distortion := 20,
        mood := Mood.uplifting }).mood = Mood.dark ∧
    Mood.dark ≠ Mood.uplifting := by
  decide

/-- C9, amended: the mood resolved by `analyzePromptAdvanced` is a function of the
prompt words alone — it equals `extractAdvancedMood words` and is identical for any
two settings records, so an explicitly set `GenerationSettings.mood` never overrides
the prompt-derived mood. -/
theorem analyzeMood_depends_only_on_words :
    ∀ (words : List String) (s1 s2 : GenerationSettingsE),
      (analyzePromptAdvanced words s1).mood = (analyzePromptAdvanced words s2).mood ∧
      (analyzePromptAdvanced words s1).mood = extractAdvancedMood words :=
  fun _ _ _ => ⟨rfl, rfl⟩

/-- Each encoded sample is exactly two bytes. -/
theorem encodeSample_length (x : ℚ) : (encodeSample x).length = 2 := rfl

/-- The encoded data section is exactly two bytes per sample. -/
theorem flatten_encodeSample_length (l : List ℚ) :
    ((l.map encodeSample).flatten).length = 2 * l.length := by
  induction l with
  | nil => rfl
  | cons x xs ih =>
    simp only [List.map_cons, List.flatten_cons, List.length_append, List.length_cons, ih,
      encodeSample_length]
    ring

/-- The spec-described header is 44 bytes for every sample count and rate. -/
theorem wavHeaderSpec_length (n r : ℕ) : (wavHeaderSpec n r).length = 44 := rfl

/-- The truncated encoding is also two bytes per sample. -/
theorem encodeSampleTrunc_length (x : ℚ) : (encodeSampleTrunc x).length = 2 := rfl

/-- The truncation-based data section is exactly two bytes per sample. -/
theorem flatten_encodeSampleTrunc_length (l : List ℚ) :
    ((l.map encodeSampleTrunc).flatten).length = 2 * l.length := by
  induction l with
  | nil => rfl
  | cons x xs ih =>
    simp only [List.map_cons, List.flatten_cons, List.length_append, List.length_cons, ih,
      encodeSampleTrunc_length]
    ring

/-- C5, counterexample: the `MusicGenerator` WAV encoder does not use the claimed
`round(clamp(sample,-1,1)·32767)` conversion. At the single sample 0.7,
`0.7·32767 = 22936.9` truncates to 22936 (bytes `[152, 89]`) while rounding gives
22937 (bytes `[153, 89]`), so the produced buffer differs from the claim's bytes. -/
theorem musicGeneratorWAV_not_round_encoded :
    musicGeneratorCreateWAVBuffer [7/10] 44100 ≠
      wavHeaderSpec 1 44100 ++ ([(7/10 : ℚ)].map encodeSample).flatten ∧
    encodeSampleTrunc (7/10) = [152, 89] ∧
    encodeSample (7/10) = [153, 89] := by
  have hclamp : clamp1 (7/10 : ℚ) = 7/10 := by
    norm_num [clamp1, min_def, max_def]
  have hmul : clamp1 (7/10 : ℚ) * 32767 = 229369/10 := by
    rw [hclamp]; norm_num
  have htr : jsTrunc (clamp1 (7/10 : ℚ) * 32767) = 22936 := by
    rw [hmul]
    unfold jsTrunc
    rw [if_neg (by norm_num), ratFloor_eq_intFloor]
    norm_num [Int.floor_eq_iff]
  have hrd : jsRound (clamp1 (7/10 : ℚ) * 32767) = 22937 := by
    rw [hmul]
    unfold jsRound
    rw [ratFloor_eq_intFloor]
    norm_num [Int.floor_eq_iff]
  have henc1 : encodeSampleTrunc (7/10) = [152, 89] := by
    unfold encodeSampleTrunc
    rw [htr]
    rfl
  have henc2 : encodeSample (7/10) = [153, 89] := by
    unfold encodeSample
    rw [hrd]
    rfl
  have hmg : musicGeneratorCreateWAVBuffer [7/10] 44100 = wavHeaderSpec 1 44100 ++ [152, 89] := by
    simp [musicGeneratorCreateWAVBuffer, wavHeaderSpec, Nat.mul_comm, henc1]
  have hro : wavHeaderSpec 1 44100 ++ ([(7/10 : ℚ)].map encodeSample).flatten =
      wavHeaderSpec 1 44100 ++ [153, 89] := by
    simp [henc2]
  refine ⟨?_, henc1, henc2⟩
  rw [hmg, hro]
  intro h
  have h2 := List.append_cancel_left h
  simp at h2

/-- C5, amended: both WAV encoders emit exactly the spec's 44-byte canonical PCM header
(RIFF size `36+2N`, format 1, mono, the given rate, 16 bits, data size `2N`) followed
by `2N` sample bytes, total length `44 + 2N`. The renderer's encoder converts each
sample via `round(clamp(x,-1,1)·32767)`; the `MusicGenerator` encoder omits the
rounding and writes `clamp(x,-1,1)·32767` truncated toward zero, each little-endian
signed 16-bit. -/
theorem wavEncoders_layout :
    (∀ (audioData : List ℚ) (sampleRate : ℕ),
      createWAVBuffer audioData sampleRate =
        wavHeaderSpec audioData.length sampleRate ++ (audioData.map encodeSample).flatten ∧
      (createWAVBuffer audioData sampleRate).length = 44 + 2 * audioData.length) ∧
    (∀ (audioData : List ℚ) (sampleRate : ℕ),
      musicGeneratorCreateWAVBuffer audioData sampleRate =
        wavHeaderSpec audioData.length sampleRate ++
          (audioData.map encodeSampleTrunc).flatten ∧
      (musicGeneratorCreateWAVBuffer audioData sampleRate).length =
        44 + 2 * audioData.length) ∧
    (∀ (n r : ℕ), (wavHeaderSpec n r).length = 44) ∧
    (∀ x : ℚ, encodeSample x = int16le (jsRound (clamp1 x * 32767))) ∧
    (∀ x : ℚ, encodeSampleTrunc x = int16le (jsTrunc (clamp1 x * 32767))) := by
  refine ⟨?_, ?_, fun n r => wavHeaderSpec_length n r, fun _ => rfl, fun _ => rfl⟩
  · intro audioData sampleRate
    have h1 : createWAVBuffer audioData sampleRate =
        wavHeaderSpec audioData.length sampleRate ++ (audioData.map encodeSample).flatten := by
      simp [createWAVBuffer, wavHeaderSpec, Nat.mul_comm]
    refine ⟨h1, ?_⟩
    rw [h1, List.length_append, wavHeaderSpec_length, flatten_encodeSample_length]
  · intro audioData sampleRate
    have h1 : musicGeneratorCreateWAVBuffer audioData sampleRate =
        wavHeaderSpec audioData.length sampleRate ++
          (audioData.map encodeSampleTrunc).flatten := by
      simp [musicGeneratorCreateWAVBuffer, wavHeaderSpec, Nat.mul_comm]
    refine ⟨h1, ?_⟩
    rw [h1, List.length_append, wavHeaderSpec_length, flatten_encodeSampleTrunc_length]

/-- The computed distortion amount `(d || 20) / 100` is never 0, so the early return of
`applyDistortion` is unreachable. -/
theorem distAmountOf_ne_zero (d : ℚ) : distAmountOf d ≠ 0 := by
  unfold distAmountOf jsOr
  split_ifs with h
  · norm_num
  · exact div_ne_zero h (by norm_num)

/-- `exp (8/5)` exceeds 4, via `exp (1/5) ≥ 6/5` and `(6/5)^8 > 4`. -/
theorem exp_eight_fifths_gt_four : (4 : ℝ) < Real.exp (8/5) := by
  have h15 : (6/5 : ℝ) ≤ Real.exp (1/5) := by
    have h := Real.add_one_le_exp (1/5 : ℝ)
    linarith
  have h85 : Real.exp (8/5) = Real.exp (1/5) ^ 8 := by
    rw [← Real.exp_nat_mul]
    norm_num
  calc (4 : ℝ) < (6/5) ^ 8 := by norm_num
  _ ≤ Real.exp (1/5) ^ 8 := pow_le_pow_left₀ (by norm_num) h15 8
  _ = Real.exp (8/5) := h85.symm

/-- `tanh (4/5)` exceeds `3/5`, since `exp (8/5) > 4`. -/
theorem tanh_four_fifths_gt : (3/5 : ℝ) < Real.tanh (4/5) := by
  have hE : (0 : ℝ) < Real.exp (4/5) := Real.exp_pos _
  have hE2 : (4 : ℝ) < Real.exp (4/5) ^ 2 := by
    rw [← Real.exp_nat_mul]
    norm_num
    exact exp_eight_fifths_gt_four
  have hinv : Real.exp (4/5) * (Real.exp (4/5))⁻¹ = 1 := mul_inv_cancel₀ (ne_of_gt hE)
  rw [Real.tanh_eq_sinh_div_cosh, lt_div_iff₀ (Real.cosh_pos (4/5)), Real.sinh_eq, Real.cosh_eq,
    Real.exp_neg]
  nlinarith [hE2, hE, hinv, inv_pos.mpr hE]

/-- C8, counterexample: with the distortion slider at 0 the sample is not left
unchanged — the `||` default makes the amount `0.2`, and `tanh(0.5·1.6)·0.98 > 0.5`. -/
theorem applyDistortion_zero_changes_sample : applyDistortion 0 (1/2) ≠ 1/2 := by
  have ha : distAmountOf 0 = 1/5 := by norm_num [distAmountOf, jsOr]
  have hform : applyDistortion 0 (1/2) =
      Real.tanh ((1/2 : ℝ) * (1 + (distAmountOf 0 : ℝ) * 3)) *
        (1 - (distAmountOf 0 : ℝ) * (1/10)) := by
    unfold applyDistortion
    rw [if_neg (distAmountOf_ne_zero 0)]
  have harg : ((1/2 : ℝ) * (1 + ((1/5 : ℚ) : ℝ) * 3)) = 4/5 := by push_cast; norm_num
  have hgain : (1 - ((1/5 : ℚ) : ℝ) * (1/10)) = 49/50 := by push_cast; norm_num
  have hgt : (1/2 : ℝ) < applyDistortion 0 (1/2) := by
    rw [hform, ha, harg, hgain]
    nlinarith [tanh_four_fifths_gt]
  exact (ne_of_lt hgt).symm

/-- C8, amended: `applyDistortion` always outputs
`tanh(sample·(1 + amount·3))·(1 − amount·0.1)` with `amount = (distortion || 20)/100`
(so a slider at 0 yields amount 0.2, not 0), and in the per-layer chain distortion is
applied first, before filtering, chorus, delay and reverb. -/
theorem applyDistortion_formula_and_order :
    (∀ (d : ℚ) (s : ℝ), applyDistortion d s =
      Real.tanh (s * (1 + (distAmountOf d : ℝ) * 3)) * (1 - (distAmountOf d : ℝ) * (1/10))) ∧
    distAmountOf 0 = 1/5 ∧
    (∀ (d : ℚ), d ≠ 0 → distAmountOf d = d / 100) ∧
    (∀ (distortion reverb : ℚ) (i : ℕ) (sample : ℝ) (delaySt reverbSt : RingBuffer),
      (applyEffectsChainStep distortion reverb i sample delaySt reverbSt).1 =
        (applyReverb reverb
          (applyDelay
            (applyChorus
              (applyFilter (applyDistortion distortion sample) ((i : ℝ) / 44100))
              ((i : ℝ) / 44100))
            delaySt).1 reverbSt).1) := by
  refine ⟨?_, by norm_num [distAmountOf, jsOr], ?_, fun _ _ _ _ _ _ => rfl⟩
  · intro d s
    unfold applyDistortion
    rw [if_neg (distAmountOf_ne_zero d)]
  · intro d hd
    unfold distAmountOf jsOr
    rw [if_neg hd]

/-- Witness for `applyDistortion_formula_and_order`: the nonzero-slider amount formula
at distortion 40. -/
theorem applyDistortion_formula_and_order_witness :
    distAmountOf 40 = 40 / 100 :=
  applyDistortion_formula_and_order.2.2.1 40 (by norm_num)

/-- The reverb wet level computed for a slider at 0 equals the one computed for the
default 70, because `0 || 70` evaluates to 70. -/
theorem reverbLevelOf_zero_eq : reverbLevelOf 0 = reverbLevelOf 70 := by
  norm_num [reverbLevelOf, jsOr]

/-- One reverb step behaves identically for sliders 0 and 70. -/
theorem applyReverb_zero_eq_seventy (x : ℝ) (st : RingBuffer) :
    applyReverb 0 x st = applyReverb 70 x st := by
  unfold applyReverb
  rw [reverbLevelOf_zero_eq]

/-- C10: over any sample sequence and any delay-line state, the reverb effect with
`settings.reverb = 0` produces exactly the same outputs and final state as with
`settings.reverb = 70`: the falsy 0 is replaced by the default before the wet level is
computed, so a zero reverb slider never yields a dry signal. -/
theorem applyReverbRun_zero_eq_seventy :
    ∀ (samples : List ℝ) (st : RingBuffer),
      applyReverbRun 0 samples st = applyReverbRun 70 samples st := by
  intro samples
  induction samples with
  | nil => intro st; rfl
  | cons x xs ih =>
    intro st
    simp only [applyReverbRun]
    rw [applyReverb_zero_eq_seventy, ih]

end HubCorner
